import Mathlib

/-!
Verification of the WaveSync chunk player (libwavesync/chunk_player.py).

The player state, queue events and the body of the `chunk_player` loop are
embedded shallowly: Python floats become `ℚ`, byte strings become `List ℕ`,
the event deque becomes a `List Cmd` (popleft = head, append = snoc), and
each iteration of the cooperative loop becomes a pure state-transition
function that also returns the externally observable effects of the
iteration (writes, drops, sleeps, recovery invocations, status reports).
-/

namespace WaveSync

/-- An audio configuration as carried by a CMD_CFG queue item
(`sample` bits, channel count, sample rate, chunk size in bytes,
latency in milliseconds). -/
structure AudioCfg where
  sample : ℕ
  channels : ℕ
  rate : ℕ
  chunk_size : ℕ
  latency_msec : ℕ
deriving DecidableEq

/-- A queue event: CMD_CFG, CMD_DROPS, or CMD_AUDIO (a timestamp mark and
a payload of bytes). -/
inductive Cmd where
  | cfg (item : AudioCfg)
  | drops (item : ℕ)
  | sound (mark : ℚ) (chunk : List ℕ)
deriving DecidableEq

/-- Network statistics of the receiver collaborator (read-only). -/
structure Receiver where
  stat_network_latency : ℚ
  stat_network_drops : ℕ
deriving DecidableEq

/-- Immutable constructor parameters of `ChunkPlayer` that the loop reads. -/
structure Params where
  tolerance : ℚ
  sink_latency : ℚ
  receiver : Option Receiver
deriving DecidableEq

/-- The mutable state of a `ChunkPlayer` together with the local variables
of the `chunk_player` loop that persist across iterations
(`cnt`, `recent`, `recent_start`, `max_delay`).  The stream handle is
abstracted to the boolean `stream` (device open or not); `chunk_queue` is
the field `chunk_list`. -/
structure PState where
  chunk_list : List Cmd
  audio_cfg : Option AudioCfg
  stream : Bool
  silence_cache : Option (List ℕ)
  silence_to_insert : ℕ
  stat_time_drops : ℕ
  stat_output_delays : ℕ
  stat_total_delay : ℚ
  frame_size : Option ℕ
  chunk_frames : Option ℚ
  cnt : ℕ
  recent : ℕ
  recent_start : ℚ
  max_delay : ℚ
deriving DecidableEq

/-- The per-iteration external inputs: the wall clock `datetime.utcnow()`
(`now`), the draw of `random.random()` (`rand`, in `[0,1)`), the successive
results of `stream.get_write_available()` (`avail`, indexed by poll number
within the iteration), and the monotonic `time()` clock (`wall`). -/
structure Env where
  now : ℚ
  rand : ℚ
  avail : ℕ → ℕ
  wall : ℚ

/-- One status line of the stats block (the values interpolated into the
STAT format string, before unit scaling for display). -/
structure Report where
  bs : ℚ
  chunks_per_s : ℚ
  avg_delay : ℚ
  network_latency : ℚ
  network_drops : ℕ
  time_drops : ℕ
  output_delays : ℕ
deriving DecidableEq

/-- Observable effects of one loop iteration: whether `stream.write` ran,
whether a probabilistic time-drop happened, whether `clear_state` was
invoked, the duration of the pre-write alignment sleep if any, whether the
stuck-output one-second sleep ran, and the emitted status report if any. -/
structure Effects where
  wrote : Bool := false
  dropped : Bool := false
  recovered : Bool := false
  pre_wait : Option ℚ := none
  stuck : Bool := false
  report : Option Report := none
deriving DecidableEq

/-- The scan in `clear_state`: `for cmd, item in chunk_list: if cmd == CMD_CFG:
cfg = item; break` — the first CFG item of the queue, if any. -/
def first_cfg : List Cmd → Option AudioCfg
  | [] => none
  | Cmd.cfg c :: _ => some c
  | _ :: rest => first_cfg rest

/-- `ChunkPlayer.clear_state`: zero `silence_to_insert`, clear the queue but
re-insert the first CFG command found, then ask the queue for recovery
(the `do_recovery` hook is external and does not touch player state). -/
def clear_state (s : PState) : PState :=
  { s with
    silence_to_insert := 0,
    chunk_list :=
      match first_cfg s.chunk_list with
      | some c => [Cmd.cfg c]
      | none => [] }

/-- `ChunkPlayer.get_silent_chunk`: return the cached silence buffer if
present, otherwise build `b'\x00' * audio_cfg['chunk_size']` and cache it.
(When `audio_cfg` is unset the Python code would raise; that branch is
modelled as an empty buffer and is never relied upon.) -/
def get_silent_chunk (s : PState) : PState × List ℕ :=
  match s.silence_cache with
  | some c => (s, c)
  | none =>
    let n := match s.audio_cfg with
      | some cfg => cfg.chunk_size
      | none => 0
    let c := List.replicate n 0
    ({ s with silence_cache := some c }, c)

/-- `ChunkPlayer._open_stream`: calls `clear_state`, derives `frame_size`
from the sample width (3 bytes per channel for 24-bit, else 2), opens the
device, and sets `chunk_frames = chunk_size / frame_size` (Python true
division, hence `ℚ`).  When `audio_cfg` is unset the Python code would
raise; the loop only calls this right after setting it. -/
def open_stream (s : PState) : PState :=
  let s := clear_state s
  match s.audio_cfg with
  | none => s
  | some cfg =>
    let fs := if cfg.sample = 24 then 3 * cfg.channels else 2 * cfg.channels
    { s with
      frame_size := some fs,
      chunk_frames := some ((cfg.chunk_size : ℚ) / (fs : ℚ)),
      stream := true }

/-- `ChunkPlayer._close_stream`: stop and close the device. -/
def close_stream (s : PState) : PState :=
  { s with stream := false }

/-- Handler of a CMD_CFG event inside the loop: `clear_state`, install the
new configuration, close any open device, reopen, and recompute
`max_delay = 0.2 + sink_latency + latency_msec / 1000`. -/
def handle_cfg (p : Params) (s : PState) (item : AudioCfg) : PState × Effects :=
  let s := clear_state s
  let s := { s with audio_cfg := some item }
  let s := if s.stream then close_stream s else s
  let s := open_stream s
  let s := { s with
    max_delay := 1/5 + p.sink_latency + (item.latency_msec : ℚ) / 1000 }
  (s, { recovered := true })

/-- Handler of a CMD_DROPS event: above 200 dropped packets do a full
recovery, otherwise add the count to `silence_to_insert`. -/
def handle_drops (s : PState) (item : ℕ) : PState × Effects :=
  if 200 < item then
    (clear_state s, { recovered := true })
  else
    ({ s with silence_to_insert := s.silence_to_insert + item }, {})

/-- Outcome of the output-writer loop: how many times
`stat_output_delays` was incremented, whether `stream.write` ran, whether
the stuck-output one-second sleep ran, and the last value polled into the
`buffer_space` local (read again by the stats block). -/
structure WriteResult where
  delays : ℕ
  wrote : Bool
  stuck : Bool
  buffer_space : ℕ
deriving DecidableEq

/-- The body of the output-writer `while True` loop, with `times` the retry
counter of the source.  Each failing poll increments `stat_output_delays`,
sleeps `max(one_msec, delay)`, and bumps `times`; once `times` exceeds 100
the write is abandoned after a one-second sleep (`stuck`); a successful
poll writes the chunk.  The loop body runs at most 101 times — `times`
grows by one per failing poll and the loop stops when it reaches 101 — so
structural recursion on a fuel of 102 is exact and never hits the
out-of-fuel branch when started from `times = 0`. -/
def write_loop_go (avail : ℕ → ℕ) (chunk_frames : ℚ) :
    ℕ → ℕ → ℕ → WriteResult
  | 0, i, _ => ⟨0, false, false, avail i⟩
  | fuel + 1, i, times =>
    if (avail i : ℚ) < chunk_frames then
      if 100 < times + 1 then
        ⟨1, false, true, avail i⟩
      else
        let r := write_loop_go avail chunk_frames fuel (i + 1) (times + 1)
        ⟨r.delays + 1, r.wrote, r.stuck, r.buffer_space⟩
    else
      ⟨0, true, false, avail i⟩

/-- The output-writer loop as entered by the player: poll index and `times`
both start at 0. -/
def write_loop (avail : ℕ → ℕ) (chunk_frames : ℚ) : WriteResult :=
  write_loop_go avail chunk_frames 102 0 0

/-- The tail of the CMD_AUDIO branch after the delay checks: run the
output writer, add its `stat_output_delays` increments, and emit a status
line when `recent > 200`, resetting the windowed counters afterwards.
`pre_wait` records the alignment sleep chosen by the caller. -/
def write_and_report (p : Params) (env : Env) (s : PState) (chunk : List ℕ)
    (pre_wait : Option ℚ) : PState × Effects :=
  let w := write_loop env.avail (s.chunk_frames.getD 0)
  let s := { s with stat_output_delays := s.stat_output_delays + w.delays }
  if 200 < s.recent then
    let frames_in_chunk := (chunk.length : ℚ) / ((s.frame_size.getD 0 : ℕ) : ℚ)
    let network_latency := match p.receiver with
      | some r => r.stat_network_latency
      | none => 0
    let network_drops := match p.receiver with
      | some r => r.stat_network_drops
      | none => 0
    let rep : Report :=
      { bs := (w.buffer_space : ℚ) / frames_in_chunk,
        chunks_per_s := (s.recent : ℚ) / (env.wall - s.recent_start),
        avg_delay := s.stat_total_delay / (s.cnt : ℚ),
        network_latency := network_latency,
        network_drops := network_drops,
        time_drops := s.stat_time_drops,
        output_delays := s.stat_output_delays }
    ({ s with recent := 0, recent_start := env.wall },
     { wrote := w.wrote, pre_wait := pre_wait, stuck := w.stuck,
       report := some rep })
  else
    (s, { wrote := w.wrote, pre_wait := pre_wait, stuck := w.stuck })

/-- Handler of a CMD_AUDIO event: discard when no device is open; compute
`delay = (mark - sink_latency) - now`, accumulate the delay statistics,
then either probabilistically drop the chunk (when
`delay < -mid_tolerance`, with probability `prob = over / mid_tolerance`,
realised as `rand < prob`), recover when `delay > max_delay`, or sleep
`max(one_msec, delay - one_msec)` when the chunk is more than a
millisecond early — and finally write and report.  The `elif` chain of the
source means a chunk surviving the probabilistic branch skips the other
two checks. -/
def handle_sound (p : Params) (env : Env) (s : PState) (mark : ℚ)
    (chunk : List ℕ) : PState × Effects :=
  if s.stream = false then
    (s, {})
  else
    let desired_time := mark - p.sink_latency
    let delay := desired_time - env.now
    let s1 : PState :=
      { s with
        stat_total_delay := s.stat_total_delay + delay,
        recent := s.recent + 1,
        cnt := s.cnt + 1 }
    let mid_tolerance := p.tolerance / 2
    let one_msec : ℚ := 1 / 1000
    if delay < -mid_tolerance then
      if env.rand < (-delay - mid_tolerance) / mid_tolerance then
        ({ s1 with stat_time_drops := s1.stat_time_drops + 1 },
         { dropped := true })
      else
        write_and_report p env s1 chunk none
    else if s1.max_delay < delay then
      (clear_state s1, { recovered := true })
    else if one_msec < delay then
      write_and_report p env s1 chunk
        (some (max one_msec (delay - one_msec)))
    else
      write_and_report p env s1 chunk none

/-- One iteration of the `while True` loop of `chunk_player`.  An empty
queue waits for the producer and resets the windowed statistics
(`recent`, `recent_start`); otherwise the head event is popped and
dispatched on its command. -/
def step (p : Params) (env : Env) (s : PState) : PState × Effects :=
  match s.chunk_list with
  | [] =>
    ({ s with recent := 0, recent_start := env.wall }, {})
  | c :: rest =>
    let s := { s with chunk_list := rest }
    match c with
    | Cmd.cfg item => handle_cfg p s item
    | Cmd.drops item => handle_drops s item
    | Cmd.sound mark chunk => handle_sound p env s mark chunk

/-! ### Helper lemmas -/

/-- When every poll reports too little space, the writer loop runs its
body `101 - times` more times and abandons the write. -/
lemma write_loop_go_stuck (avail : ℕ → ℕ) (cf : ℚ)
    (h : ∀ j, (avail j : ℚ) < cf) :
    ∀ fuel i times, times ≤ 100 → 101 - times ≤ fuel →
      write_loop_go avail cf fuel i times =
        ⟨101 - times, false, true, avail (i + (100 - times))⟩ := by
  intro fuel
  induction fuel with
  | zero => intro i times h1 h2; omega
  | succ fuel ih =>
    intro i times h1 h2
    rw [write_loop_go, if_pos (h i)]
    by_cases h3 : 100 < times + 1
    · rw [if_pos h3]
      have h4 : times = 100 := by omega
      subst h4
      simp
    · rw [if_neg h3]
      have h4 : times + 1 ≤ 100 := by omega
      rw [ih (i + 1) (times + 1) h4 (by omega)]
      simp only [WriteResult.mk.injEq]
      exact ⟨by omega, trivial, trivial, congrArg avail (by omega)⟩

/-- A stuck device: the writer gives up after 101 failing polls, having
incremented the delay counter 101 times, never writing, after the
one-second stuck sleep. -/
lemma write_loop_stuck (avail : ℕ → ℕ) (cf : ℚ)
    (h : ∀ j, (avail j : ℚ) < cf) :
    write_loop avail cf = ⟨101, false, true, avail 100⟩ := by
  have := write_loop_go_stuck avail cf h 102 0 0 (by omega) (by omega)
  simpa [write_loop] using this

/-- A device with room on the first poll: the chunk is written at once. -/
lemma write_loop_ok (avail : ℕ → ℕ) (cf : ℚ)
    (h : ¬ ((avail 0 : ℚ) < cf)) :
    write_loop avail cf = ⟨0, true, false, avail 0⟩ := by
  rw [write_loop, write_loop_go, if_neg h]

/-- Below the reporting threshold, `write_and_report` only adds the
writer's delay increments to the state. -/
lemma write_and_report_of_le (p : Params) (env : Env) (s : PState)
    (chunk : List ℕ) (pw : Option ℚ) (h : s.recent ≤ 200) :
    write_and_report p env s chunk pw =
      ({ s with stat_output_delays :=
          s.stat_output_delays + (write_loop env.avail (s.chunk_frames.getD 0)).delays },
       { wrote := (write_loop env.avail (s.chunk_frames.getD 0)).wrote,
         pre_wait := pw,
         stuck := (write_loop env.avail (s.chunk_frames.getD 0)).stuck }) := by
  rw [write_and_report]
  simp only []
  rw [if_neg (by simpa using Nat.not_lt.mpr h)]

/-- Above the reporting threshold, `write_and_report` emits a status line
and resets the windowed counters. -/
lemma write_and_report_of_gt (p : Params) (env : Env) (s : PState)
    (chunk : List ℕ) (pw : Option ℚ) (h : 200 < s.recent) :
    write_and_report p env s chunk pw =
      ({ s with
          stat_output_delays :=
            s.stat_output_delays + (write_loop env.avail (s.chunk_frames.getD 0)).delays,
          recent := 0,
          recent_start := env.wall },
       { wrote := (write_loop env.avail (s.chunk_frames.getD 0)).wrote,
         pre_wait := pw,
         stuck := (write_loop env.avail (s.chunk_frames.getD 0)).stuck,
         report := some
           { bs := ((write_loop env.avail (s.chunk_frames.getD 0)).buffer_space : ℚ) /
               ((chunk.length : ℚ) / ((s.frame_size.getD 0 : ℕ) : ℚ)),
             chunks_per_s := (s.recent : ℚ) / (env.wall - s.recent_start),
             avg_delay := s.stat_total_delay / (s.cnt : ℚ),
             network_latency :=
               (match p.receiver with
                | some r => r.stat_network_latency
                | none => 0),
             network_drops :=
               (match p.receiver with
                | some r => r.stat_network_drops
                | none => 0),
             time_drops := s.stat_time_drops,
             output_delays :=
               s.stat_output_delays +
                 (write_loop env.avail (s.chunk_frames.getD 0)).delays } }) := by
  rw [write_and_report]
  simp only []
  rw [if_pos (by simpa using h)]

/-- With no device open, a CMD_AUDIO event is discarded unchanged. -/
lemma handle_sound_closed (p : Params) (env : Env) (s : PState) (mark : ℚ)
    (chunk : List ℕ) (h : s.stream = false) :
    handle_sound p env s mark chunk = (s, {}) := by
  rw [handle_sound, if_pos h]

/-- The state after the delay bookkeeping of the CMD_AUDIO branch
(`stat_total_delay += delay; recent += 1; cnt += 1`). -/
def stats_bump (s : PState) (delay : ℚ) : PState :=
  { s with
    stat_total_delay := s.stat_total_delay + delay,
    recent := s.recent + 1,
    cnt := s.cnt + 1 }

/-- Unfolding of `handle_sound` when the device is open: the branch
structure over the computed delay, phrased via `stats_bump`. -/
lemma handle_sound_open (p : Params) (env : Env) (s : PState) (mark : ℚ)
    (chunk : List ℕ) (h : s.stream = true) :
    handle_sound p env s mark chunk =
      (if mark - p.sink_latency - env.now < -(p.tolerance / 2) then
        if env.rand <
            (-(mark - p.sink_latency - env.now) - p.tolerance / 2) / (p.tolerance / 2) then
          ({ stats_bump s (mark - p.sink_latency - env.now) with
              stat_time_drops := s.stat_time_drops + 1 },
           { dropped := true })
        else
          write_and_report p env (stats_bump s (mark - p.sink_latency - env.now)) chunk none
      else if s.max_delay < mark - p.sink_latency - env.now then
        (clear_state (stats_bump s (mark - p.sink_latency - env.now)), { recovered := true })
      else if (1 : ℚ) / 1000 < mark - p.sink_latency - env.now then
        write_and_report p env (stats_bump s (mark - p.sink_latency - env.now)) chunk
          (some (max ((1 : ℚ) / 1000) (mark - p.sink_latency - env.now - 1 / 1000)))
      else
        write_and_report p env (stats_bump s (mark - p.sink_latency - env.now)) chunk none) := by
  rw [handle_sound, if_neg (by simp [h])]
  rfl

/-- The effect flags of `write_and_report` in either reporting case. -/
lemma write_and_report_effects (p : Params) (env : Env) (s : PState)
    (chunk : List ℕ) (pw : Option ℚ) :
    (write_and_report p env s chunk pw).2.dropped = false ∧
    (write_and_report p env s chunk pw).2.recovered = false ∧
    (write_and_report p env s chunk pw).2.pre_wait = pw ∧
    (write_and_report p env s chunk pw).2.wrote =
      (write_loop env.avail (s.chunk_frames.getD 0)).wrote ∧
    (write_and_report p env s chunk pw).2.stuck =
      (write_loop env.avail (s.chunk_frames.getD 0)).stuck := by
  rw [write_and_report]
  simp only []
  split <;> simp

/-- The cumulative counters after `write_and_report`. -/
lemma write_and_report_counters (p : Params) (env : Env) (s : PState)
    (chunk : List ℕ) (pw : Option ℚ) :
    (write_and_report p env s chunk pw).1.cnt = s.cnt ∧
    (write_and_report p env s chunk pw).1.stat_time_drops = s.stat_time_drops ∧
    (write_and_report p env s chunk pw).1.stat_output_delays =
      s.stat_output_delays + (write_loop env.avail (s.chunk_frames.getD 0)).delays := by
  rw [write_and_report]
  simp only []
  split <;> simp

/-- The CFG item found by the `clear_state` scan is one of the pending
events. -/
lemma first_cfg_mem :
    ∀ (l : List Cmd) (c : AudioCfg), first_cfg l = some c → Cmd.cfg c ∈ l := by
  intro l
  induction l with
  | nil => intro c h; simp [first_cfg] at h
  | cons hd tl ih =>
    intro c h
    cases hd with
    | cfg c0 =>
      rw [first_cfg] at h
      obtain rfl : c0 = c := by simpa using h
      exact List.mem_cons_self _ _
    | drops n => exact List.mem_cons_of_mem _ (ih c (by simpa [first_cfg] using h))
    | sound m ch => exact List.mem_cons_of_mem _ (ih c (by simpa [first_cfg] using h))

/-- When the `clear_state` scan finds nothing, no CFG event was pending. -/
lemma first_cfg_none :
    ∀ (l : List Cmd), first_cfg l = none → ∀ c, Cmd.cfg c ∉ l := by
  intro l
  induction l with
  | nil => intro _ c h; simp at h
  | cons hd tl ih =>
    intro h c hmem
    cases hd with
    | cfg c0 => simp [first_cfg] at h
    | drops n =>
      rcases List.mem_cons.mp hmem with h1 | h1
      · exact Cmd.noConfusion h1
      · exact ih (by simpa [first_cfg] using h) c h1
    | sound m ch =>
      rcases List.mem_cons.mp hmem with h1 | h1
      · exact Cmd.noConfusion h1
      · exact ih (by simpa [first_cfg] using h) c h1

/-- The Drop Policy of spec section 4.2 as a pure decision over
`(delay, tolerance)` and the uniform draw `r`, read off the probabilistic
branch of the loop: enter when `delay < -mid_tolerance`, drop when the
draw falls below `prob = over / mid_tolerance`. -/
def drop_decision (tolerance delay r : ℚ) : Bool :=
  let mid_tolerance := tolerance / 2
  if delay < -mid_tolerance then
    decide (r < (-delay - mid_tolerance) / mid_tolerance)
  else
    false

/-! ### Concrete fixtures -/

/-- The audio configuration of spec Scenario A. -/
def cfg16k : AudioCfg := ⟨16, 2, 44100, 4096, 100⟩

/-- A second, distinct configuration (different sample rate). -/
def cfg48k : AudioCfg := ⟨16, 2, 48000, 4096, 100⟩

/-- The player state as constructed by `__init__` together with the
initial loop locals (`cnt = 0`, `recent = 0`, `max_delay = 5`). -/
def base_state : PState :=
  { chunk_list := [], audio_cfg := none, stream := false,
    silence_cache := none, silence_to_insert := 0, stat_time_drops := 0,
    stat_output_delays := 0, stat_total_delay := 0, frame_size := none,
    chunk_frames := none, cnt := 0, recent := 0, recent_start := 0,
    max_delay := 5 }

/-- A queue holding two distinct CFG events (an older one then a newer
one) plus a pending silence debt. -/
def two_cfg_state : PState :=
  { base_state with
    chunk_list := [Cmd.cfg cfg16k, Cmd.cfg cfg48k],
    silence_to_insert := 7 }

/-- Demo constructor parameters: tolerance 1 s, no sink latency, no
receiver collaborator. -/
def run_params : Params := ⟨1, 0, none⟩

/-- An environment whose device never has room for a chunk. -/
def stuck_env : Env := ⟨0, 0, fun _ => 0, 0⟩

/-- A player with an open device sized for `cfg16k`. -/
def open_state : PState :=
  { base_state with
    stream := true, audio_cfg := some cfg16k,
    frame_size := some 4, chunk_frames := some 1024 }

/-! ### Claims -/

/-- Claim C1, counterexample: with two CFG events pending, the most
recent one is `cfg48k`, yet `clear_state` re-inserts the first one,
`cfg16k` — so the retained event is not the most recent `ConfigChange`. -/
theorem C1_counterexample :
    two_cfg_state.chunk_list = [Cmd.cfg cfg16k, Cmd.cfg cfg48k] ∧
    cfg16k ≠ cfg48k ∧
    (clear_state two_cfg_state).chunk_list = [Cmd.cfg cfg16k] ∧
    (clear_state two_cfg_state).chunk_list ≠ [Cmd.cfg cfg48k] := by
  refine ⟨rfl, by decide, rfl, by decide⟩

/-- Claim C1 (amended): after `clear_state` the queue has at most one
event and `silence_to_insert` is 0; if any CFG event was pending, the
first (oldest) such event — not the most recent — is re-inserted as the
sole remaining entry, and it is indeed one of the discarded events. -/
theorem C1_clear_state (s : PState) :
    (clear_state s).silence_to_insert = 0 ∧
    (clear_state s).chunk_list.length ≤ 1 ∧
    (clear_state s).chunk_list =
      (match first_cfg s.chunk_list with
       | some c => [Cmd.cfg c]
       | none => []) ∧
    (∀ c, first_cfg s.chunk_list = some c → Cmd.cfg c ∈ s.chunk_list) ∧
    (first_cfg s.chunk_list = none → ∀ c, Cmd.cfg c ∉ s.chunk_list) := by
  refine ⟨rfl, ?_, rfl, first_cfg_mem s.chunk_list, first_cfg_none s.chunk_list⟩
  rw [clear_state]
  cases first_cfg s.chunk_list <;> simp

/-- Witness for C1 on the two-CFG queue: the scan finds `cfg16k`, which
is indeed pending, and the silence budget is cleared. -/
theorem C1_clear_state_witness :
    first_cfg two_cfg_state.chunk_list = some cfg16k ∧
    Cmd.cfg cfg16k ∈ two_cfg_state.chunk_list ∧
    (clear_state two_cfg_state).silence_to_insert = 0 :=
  ⟨rfl, (C1_clear_state two_cfg_state).2.2.2.1 cfg16k rfl,
   (C1_clear_state two_cfg_state).1⟩

/-- Claim C3: a loss notice above 200 packets always does a full
recovery (`clear_state`, leaving the silence budget at 0 rather than
incremented), one of at most 200 packets never recovers and adds the
count to the silence budget; the boundary is exclusive at 200. -/
theorem C3_loss_notice (s : PState) (n : ℕ) :
    (200 < n →
      handle_drops s n = (clear_state s, { recovered := true }) ∧
      (handle_drops s n).1.silence_to_insert = 0) ∧
    (n ≤ 200 →
      handle_drops s n =
        ({ s with silence_to_insert := s.silence_to_insert + n }, {}) ∧
      (handle_drops s n).2.recovered = false) := by
  constructor
  · intro h
    rw [handle_drops, if_pos h]
    exact ⟨rfl, rfl⟩
  · intro h
    rw [handle_drops, if_neg (by omega)]
    exact ⟨rfl, rfl⟩

/-- Witness for C3 at the boundary inputs 201 and 200. -/
theorem C3_loss_notice_witness :
    (200 < 201 ∧
      (handle_drops two_cfg_state 201 = (clear_state two_cfg_state, { recovered := true }) ∧
       (handle_drops two_cfg_state 201).1.silence_to_insert = 0)) ∧
    (200 ≤ 200 ∧
      (handle_drops two_cfg_state 200 =
        ({ two_cfg_state with
            silence_to_insert := two_cfg_state.silence_to_insert + 200 }, {}) ∧
       (handle_drops two_cfg_state 200).2.recovered = false)) :=
  ⟨⟨by decide, (C3_loss_notice two_cfg_state 201).1 (by decide)⟩,
   ⟨by decide, (C3_loss_notice two_cfg_state 200).2 (by decide)⟩⟩

/-- Claim C4, counterexample: with the device reporting no room on every
poll, the chunk write is abandoned with `stat_output_delays` incremented
101 times — once per failing poll, including the final one — not 100. -/
theorem C4_counterexample :
    (write_and_report run_params stuck_env open_state [] none).1.stat_output_delays = 101 ∧
    (write_and_report run_params stuck_env open_state [] none).2.wrote = false ∧
    (write_and_report run_params stuck_env open_state [] none).2.stuck = true ∧
    (101 : ℕ) ≠ 100 := by
  have h : ∀ j, ((stuck_env.avail j : ℕ) : ℚ) < open_state.chunk_frames.getD 0 := by
    intro j
    norm_num [stuck_env, open_state, base_state]
  have hw := write_loop_stuck stuck_env.avail (open_state.chunk_frames.getD 0) h
  rw [write_and_report_of_le _ _ _ _ _ (by norm_num [open_state, base_state])]
  simp only [hw]
  norm_num [open_state, base_state]

/-- Claim C4 (amended): when `availableWriteFrames < chunkFrames` on 101
consecutive polls, the write is abandoned after the final retry with
`outputDelays` incremented exactly 101 times, the one-second stuck
suspension happens, and the payload is never written; the loop then
proceeds normally. -/
theorem C4_stuck_output (p : Params) (env : Env) (s : PState) (chunk : List ℕ)
    (pw : Option ℚ)
    (h : ∀ j, ((env.avail j : ℕ) : ℚ) < s.chunk_frames.getD 0) :
    (write_and_report p env s chunk pw).1.stat_output_delays =
      s.stat_output_delays + 101 ∧
    (write_and_report p env s chunk pw).2.wrote = false ∧
    (write_and_report p env s chunk pw).2.stuck = true := by
  have hw := write_loop_stuck env.avail (s.chunk_frames.getD 0) h
  by_cases hr : 200 < s.recent
  · rw [write_and_report_of_gt p env s chunk pw hr]
    simp [hw]
  · rw [write_and_report_of_le p env s chunk pw (by omega)]
    simp [hw]

/-- Witness for C4 on a concrete always-stuck device. -/
theorem C4_stuck_output_witness :
    (∀ j, ((stuck_env.avail j : ℕ) : ℚ) < open_state.chunk_frames.getD 0) ∧
    ((write_and_report run_params stuck_env open_state [0] none).1.stat_output_delays =
        open_state.stat_output_delays + 101 ∧
     (write_and_report run_params stuck_env open_state [0] none).2.wrote = false ∧
     (write_and_report run_params stuck_env open_state [0] none).2.stuck = true) :=
  ⟨fun j => by norm_num [stuck_env, open_state, base_state],
   C4_stuck_output run_params stuck_env open_state [0] none
     (fun j => by norm_num [stuck_env, open_state, base_state])⟩

/-- Claim C2: with a positive tolerance and a uniform draw in `[0,1)`,
the Drop Policy never drops when `delay ≥ -midTolerance`; always drops
when `over = -delay - midTolerance` exceeds `midTolerance` (prob above
1); in between drops exactly when the draw is below
`over / midTolerance`; and inside the loop a drop increments
`stat_time_drops` by exactly 1, the drop flag of an audio iteration
agreeing with the pure policy. -/
theorem C2_drop_policy (tolerance delay r : ℚ) (ht : 0 < tolerance)
    (hr0 : 0 ≤ r) (hr1 : r < 1) :
    (-(tolerance / 2) ≤ delay → drop_decision tolerance delay r = false) ∧
    (tolerance / 2 < -delay - tolerance / 2 →
      drop_decision tolerance delay r = true) ∧
    (delay < -(tolerance / 2) → -delay - tolerance / 2 ≤ tolerance / 2 →
      (drop_decision tolerance delay r = true ↔
        r < (-delay - tolerance / 2) / (tolerance / 2))) ∧
    (∀ p env s mark chunk, p.tolerance = tolerance → env.rand = r →
      mark - p.sink_latency - env.now = delay → s.stream = true →
      (handle_sound p env s mark chunk).2.dropped =
        drop_decision tolerance delay r ∧
      (drop_decision tolerance delay r = true →
        (handle_sound p env s mark chunk).1.stat_time_drops =
          s.stat_time_drops + 1)) := by
  have hmid : 0 < tolerance / 2 := by positivity
  refine ⟨?_, ?_, ?_, ?_⟩
  · intro h
    rw [drop_decision, if_neg (not_lt.mpr h)]
  · intro h
    have h1 : delay < -(tolerance / 2) := by linarith
    rw [drop_decision, if_pos h1, decide_eq_true_eq]
    have h2 : 1 < (-delay - tolerance / 2) / (tolerance / 2) :=
      (one_lt_div hmid).mpr h
    linarith
  · intro h1 _
    rw [drop_decision, if_pos h1, decide_eq_true_eq]
  · intro p env s mark chunk hpt hre hdel hs
    subst hpt hre hdel
    rw [handle_sound_open p env s mark chunk hs, drop_decision]
    by_cases h1 : mark - p.sink_latency - env.now < -(p.tolerance / 2)
    · rw [if_pos h1, if_pos h1]
      by_cases h2 : env.rand <
          (-(mark - p.sink_latency - env.now) - p.tolerance / 2) / (p.tolerance / 2)
      · rw [if_pos h2]
        exact ⟨by rw [decide_eq_true h2], fun _ => rfl⟩
      · rw [if_neg h2]
        refine ⟨?_, ?_⟩
        · rw [decide_eq_false h2]
          exact (write_and_report_effects p env _ chunk none).1
        · intro hcontra
          exact absurd (of_decide_eq_true hcontra) h2
    · rw [if_neg h1, if_neg h1]
      by_cases h3 : s.max_delay < mark - p.sink_latency - env.now
      · rw [if_pos h3]
        exact ⟨rfl, fun h => absurd h (by simp)⟩
      · rw [if_neg h3]
        by_cases h4 : (1 : ℚ) / 1000 < mark - p.sink_latency - env.now
        · rw [if_pos h4]
          exact ⟨(write_and_report_effects p env _ chunk _).1,
            fun h => absurd h (by simp)⟩
        · rw [if_neg h4]
          exact ⟨(write_and_report_effects p env _ chunk _).1,
            fun h => absurd h (by simp)⟩

/-- Witness for C2 at `tolerance = 1`, `delay = -2`, `r = 1/2`: the
always-drop regime. -/
theorem C2_drop_policy_witness :
    (0 < (1 : ℚ) ∧ 0 ≤ (1/2 : ℚ) ∧ (1/2 : ℚ) < 1) ∧
    ((1 : ℚ) / 2 < -(-2 : ℚ) - 1 / 2 →
      drop_decision 1 (-2) (1/2) = true) :=
  ⟨⟨by norm_num, by norm_num, by norm_num⟩,
   (C2_drop_policy 1 (-2) (1/2) (by norm_num) (by norm_num) (by norm_num)).2.1⟩

/-- Claim C7: processing a CFG event derives the frame size as
`3 * channels` for 24-bit samples and `2 * channels` otherwise, and
`chunk_frames = chunk_size / frame_size` (true division); Scenario A
gives a frame size of 4 bytes and 1024 frames per chunk. -/
theorem C7_frame_size (p : Params) (s : PState) (item : AudioCfg) :
    (handle_cfg p s item).1.frame_size =
      some (if item.sample = 24 then 3 * item.channels else 2 * item.channels) ∧
    (handle_cfg p s item).1.chunk_frames =
      some ((item.chunk_size : ℚ) /
        (((if item.sample = 24 then 3 * item.channels else 2 * item.channels) : ℕ) : ℚ)) ∧
    (item = ⟨16, 2, 44100, 4096, 100⟩ →
      (handle_cfg p s item).1.frame_size = some 4 ∧
      (handle_cfg p s item).1.chunk_frames = some 1024) := by
  have h : (handle_cfg p s item).1.frame_size =
        some (if item.sample = 24 then 3 * item.channels else 2 * item.channels) ∧
      (handle_cfg p s item).1.chunk_frames =
        some ((item.chunk_size : ℚ) /
          (((if item.sample = 24 then 3 * item.channels else 2 * item.channels) : ℕ) : ℚ)) := by
    rw [handle_cfg]
    cases hs : s.stream <;>
      simp [open_stream, close_stream, clear_state, hs]
  refine ⟨h.1, h.2, ?_⟩
  rintro rfl
  refine ⟨?_, ?_⟩
  · rw [h.1]; norm_num
  · rw [h.2]; norm_num

/-- Witness for C7 at the Scenario A configuration. -/
theorem C7_frame_size_witness :
    (cfg16k = (⟨16, 2, 44100, 4096, 100⟩ : AudioCfg)) ∧
    ((handle_cfg run_params base_state cfg16k).1.frame_size = some 4 ∧
     (handle_cfg run_params base_state cfg16k).1.chunk_frames = some 1024) :=
  ⟨rfl, (C7_frame_size run_params base_state cfg16k).2.2 rfl⟩

/-- A configuration with a smaller chunk size, to observe the stale
silence cache after a config change. -/
def cfg_small : AudioCfg := ⟨16, 2, 44100, 4, 100⟩

/-- An older configuration with chunk size 8 whose silence buffer is
already cached. -/
def cfg_old8 : AudioCfg := ⟨16, 2, 44100, 8, 100⟩

/-- A player that has cached the 8-byte silence buffer of `cfg_old8`. -/
def cached_state : PState :=
  { base_state with
    audio_cfg := some cfg_old8,
    silence_cache := some (List.replicate 8 0) }

/-- Claim C8 is violated by the code: processing a CFG event never
resets `silence_cache`, so after switching from an 8-byte-chunk
configuration to a 4-byte-chunk one, `get_silent_chunk` still returns
the stale 8-byte buffer instead of a zero buffer of the new chunk
size. -/
theorem C8_stale_cache :
    (handle_cfg run_params cached_state cfg_small).1.audio_cfg = some cfg_small ∧
    (handle_cfg run_params cached_state cfg_small).1.silence_cache =
      some (List.replicate 8 0) ∧
    (get_silent_chunk (handle_cfg run_params cached_state cfg_small).1).2 =
      List.replicate 8 0 ∧
    (List.replicate 8 (0 : ℕ)).length ≠ cfg_small.chunk_size := by
  refine ⟨?_, ?_, ?_, by decide⟩ <;>
    simp [handle_cfg, open_stream, close_stream, clear_state, get_silent_chunk,
      cached_state, base_state, cfg_small, cfg_old8, first_cfg]

/-- An environment with time origin 0, a mid-range draw, and a device
with room for 8 frames. -/
def run_env : Env := ⟨0, 1/2, fun _ => 8, 0⟩

/-- An open player that has already counted 199 chunks in the current
window. -/
def window_state : PState :=
  { base_state with
    stream := true, audio_cfg := some cfg16k,
    frame_size := some 4, chunk_frames := some 2,
    cnt := 199, recent := 199 }

/-- The same player once the window has counted 200 chunks. -/
def window_state_201 : PState :=
  { window_state with recent := 200, cnt := 200 }

set_option maxRecDepth 10000 in
/-- Claim C5, counterexample: the 200th audio chunk of the window is
played (written) but emits no status snapshot — the report only fires on
the 201st chunk, so snapshots are not emitted every 200 chunks. -/
theorem C5_counterexample :
    (handle_sound run_params run_env window_state 0 []).1.recent = 200 ∧
    (handle_sound run_params run_env window_state 0 []).2.report = none ∧
    (handle_sound run_params run_env window_state 0 []).2.wrote = true := by
  norm_num [handle_sound, write_and_report, write_loop, write_loop_go,
    run_params, run_env, window_state, base_state, cfg16k]

/-- Claim C5 (amended): for an audio chunk that reaches the writer (not
dropped, not catastrophically late), a status snapshot is emitted exactly
when the windowed count — already incremented for this chunk — exceeds
200, i.e. on the 201st chunk of the window rather than the 200th; the
snapshot's average delay is `stat_total_delay / cnt` (both including this
chunk), network figures default to 0 without a receiver, and the windowed
counters are reset right after a report and only then. -/
theorem C5_stats (p : Params) (env : Env) (s : PState) (mark : ℚ)
    (chunk : List ℕ) (hs : s.stream = true)
    (hd : ¬(mark - p.sink_latency - env.now < -(p.tolerance / 2)))
    (hm : ¬(s.max_delay < mark - p.sink_latency - env.now)) :
    ((handle_sound p env s mark chunk).2.report.isSome ↔ 200 < s.recent + 1) ∧
    (∀ rep, (handle_sound p env s mark chunk).2.report = some rep →
      rep.avg_delay =
        (s.stat_total_delay + (mark - p.sink_latency - env.now)) /
          (((s.cnt + 1 : ℕ) : ℚ)) ∧
      rep.time_drops = s.stat_time_drops ∧
      (p.receiver = none → rep.network_latency = 0 ∧ rep.network_drops = 0)) ∧
    (200 < s.recent + 1 →
      (handle_sound p env s mark chunk).1.recent = 0 ∧
      (handle_sound p env s mark chunk).1.recent_start = env.wall) ∧
    (s.recent + 1 ≤ 200 →
      (handle_sound p env s mark chunk).2.report = none ∧
      (handle_sound p env s mark chunk).1.recent = s.recent + 1 ∧
      (handle_sound p env s mark chunk).1.recent_start = s.recent_start) := by
  rw [handle_sound_open p env s mark chunk hs, if_neg hd, if_neg hm]
  have key : ∀ pw : Option ℚ,
      ((write_and_report p env (stats_bump s (mark - p.sink_latency - env.now))
          chunk pw).2.report.isSome ↔ 200 < s.recent + 1) ∧
      (∀ rep, (write_and_report p env (stats_bump s (mark - p.sink_latency - env.now))
          chunk pw).2.report = some rep →
        rep.avg_delay =
          (s.stat_total_delay + (mark - p.sink_latency - env.now)) /
            (((s.cnt + 1 : ℕ) : ℚ)) ∧
        rep.time_drops = s.stat_time_drops ∧
        (p.receiver = none → rep.network_latency = 0 ∧ rep.network_drops = 0)) ∧
      (200 < s.recent + 1 →
        (write_and_report p env (stats_bump s (mark - p.sink_latency - env.now))
          chunk pw).1.recent = 0 ∧
        (write_and_report p env (stats_bump s (mark - p.sink_latency - env.now))
          chunk pw).1.recent_start = env.wall) ∧
      (s.recent + 1 ≤ 200 →
        (write_and_report p env (stats_bump s (mark - p.sink_latency - env.now))
          chunk pw).2.report = none ∧
        (write_and_report p env (stats_bump s (mark - p.sink_latency - env.now))
          chunk pw).1.recent = s.recent + 1 ∧
        (write_and_report p env (stats_bump s (mark - p.sink_latency - env.now))
          chunk pw).1.recent_start = s.recent_start) := by
    intro pw
    by_cases hr : 200 < s.recent + 1
    · rw [write_and_report_of_gt p env _ chunk pw (by simpa [stats_bump] using hr)]
      refine ⟨by simp [hr], ?_, fun _ => ⟨rfl, rfl⟩, fun hc => absurd hr (by omega)⟩
      intro rep hrep
      rw [Option.some.injEq] at hrep
      subst hrep
      refine ⟨by simp [stats_bump], by simp [stats_bump], ?_⟩
      intro hrec
      rw [hrec]
      exact ⟨rfl, rfl⟩
    · rw [write_and_report_of_le p env _ chunk pw (by simp [stats_bump]; omega)]
      refine ⟨by simp [hr], ?_, fun hc => absurd hc hr, ?_⟩
      · intro rep hrep
        exact absurd hrep (by simp)
      · intro _
        exact ⟨rfl, by simp [stats_bump], by simp [stats_bump]⟩
  by_cases h4 : (1 : ℚ) / 1000 < mark - p.sink_latency - env.now
  · rw [if_pos h4]
    exact key _
  · rw [if_neg h4]
    exact key _

/-- Witness for C5 on the 201st chunk of a window: the snapshot is
emitted. -/
theorem C5_stats_witness :
    (window_state_201.stream = true ∧
      ¬((0 : ℚ) - run_params.sink_latency - run_env.now <
          -(run_params.tolerance / 2)) ∧
      ¬(window_state_201.max_delay <
          (0 : ℚ) - run_params.sink_latency - run_env.now)) ∧
    ((handle_sound run_params run_env window_state_201 0 []).2.report.isSome ↔
      200 < window_state_201.recent + 1) :=
  ⟨⟨rfl,
    by norm_num [run_params, run_env],
    by norm_num [run_params, run_env, window_state_201, window_state, base_state]⟩,
   (C5_stats run_params run_env window_state_201 0 [] rfl
      (by norm_num [run_params, run_env])
      (by norm_num [run_params, run_env, window_state_201, window_state,
        base_state])).1⟩

/-- Parameters of spec Scenario C: `sinkLatency = 0.1`. -/
def p6 : Params := ⟨1, 1/10, none⟩

/-- An open player whose `max_delay` has been set to 0.4 s. -/
def rec_state : PState :=
  { base_state with stream := true, max_delay := 2/5 }

/-- An environment at time origin 0 with a roomy device. -/
def env6 : Env := ⟨0, 1/2, fun _ => 8, 0⟩

/-- Claim C6: every CFG event sets
`max_delay = 0.2 + sink_latency + latency_msec/1000`; with sink latency
0.1 and 100 ms configured latency this is 0.4; and with the device open,
a chunk half a second in the future always triggers full recovery
(`clear_state`) and is not written. -/
theorem C6_max_delay (p : Params) (s : PState) (item : AudioCfg)
    (env : Env) (s2 : PState) (mark : ℚ) (chunk : List ℕ)
    (ht : 0 ≤ p.tolerance) (hs : s2.stream = true)
    (hmd : s2.max_delay = 2/5)
    (hdelay : mark - p.sink_latency - env.now = 1/2) :
    (handle_cfg p s item).1.max_delay =
      1/5 + p.sink_latency + (item.latency_msec : ℚ) / 1000 ∧
    (p.sink_latency = 1/10 → item.latency_msec = 100 →
      (handle_cfg p s item).1.max_delay = 2/5) ∧
    ((handle_sound p env s2 mark chunk).2.recovered = true ∧
     (handle_sound p env s2 mark chunk).2.wrote = false ∧
     (handle_sound p env s2 mark chunk).1.silence_to_insert = 0) := by
  have hmax : (handle_cfg p s item).1.max_delay =
      1/5 + p.sink_latency + (item.latency_msec : ℚ) / 1000 := by
    rw [handle_cfg]
  refine ⟨hmax, ?_, ?_⟩
  · intro h1 h2
    rw [hmax, h1, h2]
    norm_num
  · rw [handle_sound_open p env s2 mark chunk hs, hdelay]
    rw [if_neg (not_lt.mpr (by linarith : -(p.tolerance / 2) ≤ (1:ℚ)/2))]
    rw [if_pos (show s2.max_delay < (1:ℚ)/2 by rw [hmd]; norm_num)]
    exact ⟨rfl, rfl, rfl⟩

/-- Witness for C6: Scenario C realised concretely (`mark = 0.6`,
`now = 0`, `sink latency = 0.1`, so the delay is exactly 0.5 s with
`max_delay = 0.4`). -/
theorem C6_max_delay_witness :
    (0 ≤ p6.tolerance ∧ rec_state.stream = true ∧ rec_state.max_delay = 2/5 ∧
      (3/5 : ℚ) - p6.sink_latency - env6.now = 1/2) ∧
    ((handle_sound p6 env6 rec_state (3/5) []).2.recovered = true ∧
     (handle_sound p6 env6 rec_state (3/5) []).2.wrote = false ∧
     (handle_sound p6 env6 rec_state (3/5) []).1.silence_to_insert = 0) :=
  ⟨⟨by norm_num [p6], rfl, rfl, by norm_num [p6, env6]⟩,
   (C6_max_delay p6 rec_state cfg16k env6 rec_state (3/5) []
      (by norm_num [p6]) rfl rfl (by norm_num [p6, env6])).2.2⟩

/-- Claim C9: a chunk that the device will play (not dropped, not
catastrophically late) waits `max(1 ms, delay - 1 ms)` before the write
exactly when its delay exceeds the 1 ms floor, and waits not at all
otherwise. -/
theorem C9_pre_wait (p : Params) (env : Env) (s : PState) (mark : ℚ)
    (chunk : List ℕ) (hs : s.stream = true)
    (hd : ¬(mark - p.sink_latency - env.now < -(p.tolerance / 2)))
    (hm : ¬(s.max_delay < mark - p.sink_latency - env.now)) :
    ((1 : ℚ) / 1000 < mark - p.sink_latency - env.now →
      (handle_sound p env s mark chunk).2.pre_wait =
        some (max ((1 : ℚ) / 1000) (mark - p.sink_latency - env.now - 1 / 1000))) ∧
    (mark - p.sink_latency - env.now ≤ 1 / 1000 →
      (handle_sound p env s mark chunk).2.pre_wait = none) := by
  rw [handle_sound_open p env s mark chunk hs, if_neg hd, if_neg hm]
  constructor
  · intro h
    rw [if_pos h]
    exact (write_and_report_effects p env _ chunk _).2.2.1
  · intro h
    rw [if_neg (not_lt.mpr h)]
    exact (write_and_report_effects p env _ chunk _).2.2.1

/-- Witness for C9 with a chunk 10 ms early. -/
theorem C9_pre_wait_witness :
    (window_state.stream = true ∧
      ¬((1/100 : ℚ) - run_params.sink_latency - run_env.now <
          -(run_params.tolerance / 2)) ∧
      ¬(window_state.max_delay <
          (1/100 : ℚ) - run_params.sink_latency - run_env.now) ∧
      (1 : ℚ) / 1000 < (1/100 : ℚ) - run_params.sink_latency - run_env.now) ∧
    (handle_sound run_params run_env window_state (1/100) []).2.pre_wait =
      some (max ((1 : ℚ) / 1000)
        ((1/100 : ℚ) - run_params.sink_latency - run_env.now - 1 / 1000)) :=
  ⟨⟨rfl,
    by norm_num [run_params, run_env],
    by norm_num [run_params, run_env, window_state, base_state],
    by norm_num [run_params, run_env]⟩,
   (C9_pre_wait run_params run_env window_state (1/100) [] rfl
      (by norm_num [run_params, run_env])
      (by norm_num [run_params, run_env, window_state, base_state])).1
     (by norm_num [run_params, run_env])⟩

/-- The handler of a CFG event never touches the cumulative counters. -/
lemma handle_cfg_counters (p : Params) (s : PState) (item : AudioCfg) :
    (handle_cfg p s item).1.cnt = s.cnt ∧
    (handle_cfg p s item).1.stat_time_drops = s.stat_time_drops ∧
    (handle_cfg p s item).1.stat_output_delays = s.stat_output_delays := by
  rw [handle_cfg]
  cases hs : s.stream <;> simp [open_stream, close_stream, clear_state, hs]

/-- The cumulative counters never decrease across `write_and_report`. -/
lemma write_and_report_counters_le (p : Params) (env : Env) (s : PState)
    (chunk : List ℕ) (pw : Option ℚ) :
    s.cnt ≤ (write_and_report p env s chunk pw).1.cnt ∧
    s.stat_time_drops ≤ (write_and_report p env s chunk pw).1.stat_time_drops ∧
    s.stat_output_delays ≤ (write_and_report p env s chunk pw).1.stat_output_delays := by
  have hc := write_and_report_counters p env s chunk pw
  exact ⟨le_of_eq hc.1.symm, le_of_eq hc.2.1.symm,
    by rw [hc.2.2]; exact Nat.le_add_right _ _⟩

/-- The cumulative counters never decrease across a CMD_AUDIO event. -/
lemma handle_sound_counters (p : Params) (env : Env) (s : PState)
    (mark : ℚ) (chunk : List ℕ) :
    s.cnt ≤ (handle_sound p env s mark chunk).1.cnt ∧
    s.stat_time_drops ≤ (handle_sound p env s mark chunk).1.stat_time_drops ∧
    s.stat_output_delays ≤ (handle_sound p env s mark chunk).1.stat_output_delays := by
  have hb : s.cnt ≤ (stats_bump s (mark - p.sink_latency - env.now)).cnt ∧
      s.stat_time_drops ≤ (stats_bump s (mark - p.sink_latency - env.now)).stat_time_drops ∧
      s.stat_output_delays ≤
        (stats_bump s (mark - p.sink_latency - env.now)).stat_output_delays := by
    simp [stats_bump]
  cases hs : s.stream with
  | false =>
    rw [handle_sound_closed p env s mark chunk hs]
    exact ⟨le_refl _, le_refl _, le_refl _⟩
  | true =>
    rw [handle_sound_open p env s mark chunk hs]
    by_cases h1 : mark - p.sink_latency - env.now < -(p.tolerance / 2)
    · rw [if_pos h1]
      by_cases h2 : env.rand <
          (-(mark - p.sink_latency - env.now) - p.tolerance / 2) / (p.tolerance / 2)
      · rw [if_pos h2]
        simp [stats_bump]
      · rw [if_neg h2]
        have hw := write_and_report_counters_le p env
          (stats_bump s (mark - p.sink_latency - env.now)) chunk none
        exact ⟨le_trans hb.1 hw.1, le_trans hb.2.1 hw.2.1, le_trans hb.2.2 hw.2.2⟩
    · rw [if_neg h1]
      by_cases h3 : s.max_delay < mark - p.sink_latency - env.now
      · rw [if_pos h3]
        simp [clear_state, stats_bump]
      · rw [if_neg h3]
        by_cases h4 : (1 : ℚ) / 1000 < mark - p.sink_latency - env.now
        · rw [if_pos h4]
          have hw := write_and_report_counters_le p env
            (stats_bump s (mark - p.sink_latency - env.now)) chunk
            (some (max ((1 : ℚ) / 1000) (mark - p.sink_latency - env.now - 1 / 1000)))
          exact ⟨le_trans hb.1 hw.1, le_trans hb.2.1 hw.2.1, le_trans hb.2.2 hw.2.2⟩
        · rw [if_neg h4]
          have hw := write_and_report_counters_le p env
            (stats_bump s (mark - p.sink_latency - env.now)) chunk none
          exact ⟨le_trans hb.1 hw.1, le_trans hb.2.1 hw.2.1, le_trans hb.2.2 hw.2.2⟩

/-- Unfolding of `step` on an empty queue. -/
lemma step_nil (p : Params) (env : Env) (s : PState)
    (h : s.chunk_list = []) :
    step p env s = ({ s with recent := 0, recent_start := env.wall }, {}) := by
  rw [step, h]

/-- Unfolding of `step` when a CFG event is at the head of the queue. -/
lemma step_cfg (p : Params) (env : Env) (s : PState) (item : AudioCfg)
    (rest : List Cmd) (h : s.chunk_list = Cmd.cfg item :: rest) :
    step p env s = handle_cfg p { s with chunk_list := rest } item := by
  rw [step, h]

/-- Unfolding of `step` when a loss notice is at the head of the queue. -/
lemma step_drops (p : Params) (env : Env) (s : PState) (item : ℕ)
    (rest : List Cmd) (h : s.chunk_list = Cmd.drops item :: rest) :
    step p env s = handle_drops { s with chunk_list := rest } item := by
  rw [step, h]

/-- Unfolding of `step` when an audio chunk is at the head of the queue. -/
lemma step_sound (p : Params) (env : Env) (s : PState) (mark : ℚ)
    (chunk : List ℕ) (rest : List Cmd)
    (h : s.chunk_list = Cmd.sound mark chunk :: rest) :
    step p env s = handle_sound p env { s with chunk_list := rest } mark chunk := by
  rw [step, h]

/-- Claim C10: the cumulative counters `cnt`, `stat_time_drops` and
`stat_output_delays` are non-decreasing across every loop iteration —
CFG events, loss notices, recovery, audio chunks and the empty-queue
wake-up alike; only the windowed counters are ever reset. -/
theorem C10_counters_monotone (p : Params) (env : Env) (s : PState) :
    s.cnt ≤ (step p env s).1.cnt ∧
    s.stat_time_drops ≤ (step p env s).1.stat_time_drops ∧
    s.stat_output_delays ≤ (step p env s).1.stat_output_delays := by
  rcases hq : s.chunk_list with _ | ⟨c, rest⟩
  · rw [step_nil p env s hq]
    exact ⟨le_refl _, le_refl _, le_refl _⟩
  · cases c with
    | cfg item =>
      rw [step_cfg p env s item rest hq]
      have h := handle_cfg_counters p { s with chunk_list := rest } item
      simp only [] at h
      rw [h.1, h.2.1, h.2.2]
      exact ⟨le_refl _, le_refl _, le_refl _⟩
    | drops item =>
      rw [step_drops p env s item rest hq, handle_drops]
      split
      · simp [clear_state]
      · simp
    | sound mark chunk =>
      have h := handle_sound_counters p env { s with chunk_list := rest } mark chunk
      rw [step_sound p env s mark chunk rest hq]
      simpa using h

end WaveSync
